import Mathlib

/-!
Verification of the configuration-resolution, serialization and rendering core of
`swagger-ui-redist` (`src/swagger-ui/src/lib.rs`), as a shallow embedding in Lean.

Rust strings are modelled as Lean `String`; Rust `Option<T>` as `Option`;
`Vec<T>` and slices as `List`; `isize` as `Int`; `usize` as `Nat`;
`HashMap<SwaggerUiStaticFile, String>` as an association list whose `insert`
replaces any existing binding for the key.
-/

set_option maxHeartbeats 2000000
set_option maxRecDepth 16000

namespace SwaggerUiRedist

/-- Rust `Url<'a>`: one named, optionally primary documentation URL
(`src/swagger-ui/src/lib.rs`, lines 336-344). -/
structure Url where
  name : String
  url : String
  primary : Bool
deriving Repr, DecidableEq

/-- `#[derive(Default)]` for `Url`: empty name, empty url, `primary = false`. -/
def Url.default : Url := { name := "", url := "", primary := false }

/-- `Url::new(name, url)` (lines 361-367). -/
def Url.new (name url : String) : Url :=
  { Url.default with name := name, url := url }

/-- `Url::with_primary(name, url, primary)` (lines 389-395). -/
def Url.with_primary (name url : String) (primary : Bool) : Url :=
  { name := name, url := url, primary := primary }

/-- `impl From<&str> for Url` (lines 398-405): the bare string becomes the `url`
field verbatim; `name` stays empty and `primary` stays false. The `From<String>`
and `From<Cow>` impls (lines 407-423) behave identically. -/
def Url.ofStr (url : String) : Url :=
  { Url.default with url := url }

/-- Modelled from the spec: the `oauth` module (`src/swagger-ui/src/oauth.rs`) is not
among the provided sources; the spec treats the oauth configuration as an opaque
side-channel value that is stored but never serialized. -/
structure OauthConfig
deriving instance DecidableEq, Repr for OauthConfig

/-- `SyntaxHighlight` (lines 1243-1252): `activated` plus an optional theme. -/
structure SyntaxHighlight where
  activated : Bool
  theme : Option String
deriving Repr, DecidableEq

/-- `Default for SyntaxHighlight` (lines 1254-1261). -/
def SyntaxHighlight.default : SyntaxHighlight := { activated := true, theme := none }

/-- `BasicAuth` (lines 1233-1239). -/
structure BasicAuth where
  username : String
  password : String
deriving Repr, DecidableEq

/-- `SWAGGER_STANDALONE_LAYOUT` (line 425). -/
def SWAGGER_STANDALONE_LAYOUT : String := "StandaloneLayout"

/-- `SWAGGER_BASE_LAYOUT` (line 426). -/
def SWAGGER_BASE_LAYOUT : String := "BaseLayout"

/-- `Config<'a>` (lines 444-576), fields in declaration order. -/
structure Config where
  config_url : Option String
  dom_id : Option String
  url : Option String
  urls_primary_name : Option String
  urls : List Url
  query_config_enabled : Option Bool
  deep_linking : Option Bool
  display_operation_id : Option Bool
  default_models_expand_depth : Option Int
  default_model_expand_depth : Option Int
  default_model_rendering : Option String
  display_request_duration : Option Bool
  doc_expansion : Option String
  filter : Option Bool
  max_displayed_tags : Option Nat
  show_extensions : Option Bool
  show_common_extensions : Option Bool
  try_it_out_enabled : Option Bool
  request_snippets_enabled : Option Bool
  oauth2_redirect_url : Option String
  show_mutated_request : Option Bool
  supported_submit_methods : Option (List String)
  validator_url : Option String
  with_credentials : Option Bool
  persist_authorization : Option Bool
  oauth : Option OauthConfig
  syntax_highlight : Option SyntaxHighlight
  layout : String
  basic_auth : Option BasicAuth
deriving Repr, DecidableEq

/-- `Default for Config` (lines 1194-1228): everything absent except
`dom_id = Some("#swagger-ui")`, `deep_linking = Some(true)` and the standalone layout. -/
def Config.default : Config where
  config_url := none
  dom_id := some "#swagger-ui"
  url := none
  urls_primary_name := none
  urls := []
  query_config_enabled := none
  deep_linking := some true
  display_operation_id := none
  default_models_expand_depth := none
  default_model_expand_depth := none
  default_model_rendering := none
  display_request_duration := none
  doc_expansion := none
  filter := none
  max_displayed_tags := none
  show_extensions := none
  show_common_extensions := none
  try_it_out_enabled := none
  request_snippets_enabled := none
  oauth2_redirect_url := none
  show_mutated_request := none
  supported_submit_methods := none
  validator_url := none
  with_credentials := none
  persist_authorization := none
  oauth := none
  syntax_highlight := none
  layout := SWAGGER_STANDALONE_LAYOUT
  basic_auth := none

/-- `Config::new()` (lines 588-590). -/
def Config.new : Config := Config.default

/-- `Config::multiple_urls` (lines 626-645): `urls.primaryName` becomes the name of
the first element whose `primary` flag is set (searched before any renaming), and
every element with an empty name gets its own url as its name. The `url` field is
not touched. -/
def Config.multiple_urls (self : Config) (urls : List Url) : Config :=
  let primary_name := (urls.find? (fun url => url.primary)).map (fun url => url.name)
  { self with
    urls_primary_name := primary_name
    urls := urls.map (fun url =>
      if url.name.isEmpty then { url with name := url.url } else url) }

/-- `Config::single_url` (lines 647-666). The source starts with
`urls.get_mut(0).map(mem::take).unwrap()`, which panics on an empty vector; the
method is only invoked by `Config::urls` when the length is exactly one, so the
empty branch here is unreachable from the public entry point. -/
def Config.single_url (self : Config) (urls : List Url) : Config :=
  match urls with
  | [] => self
  | url :: _ =>
    let primary_name := if url.primary then some url.name else none
    { self with
      urls_primary_name := primary_name
      url := if url.name.isEmpty then some url.url else none
      urls := if url.name.isEmpty then [] else [url] }

/-- `Config::urls` (lines 613-624). The Lean structure already owns a projection
named `Config.urls` for the field, so the method is embedded as `Config.set_urls`;
its inputs are the already-converted `Url` values (the Rust method converts each
element with `Into::into` first). Note the branch: a single element goes to
`single_url`, every other length — including zero — goes to `multiple_urls`. -/
def Config.set_urls (self : Config) (urls : List Url) : Config :=
  let urls_len := urls.length
  if urls_len = 1 then self.single_url urls else self.multiple_urls urls

/-! ## Serialization

`serde_json::to_string_pretty` on `Config` with the field attributes of the source:
`#[serde(rename_all = "camelCase")]` on the struct, `rename = "dom_id"` and
`rename = "urls.primaryName"` on the two exceptional fields,
`skip_serializing_if = "Option::is_none"` on every optional field,
`skip_serializing_if = "Vec::is_empty"` on `urls`, and `#[serde(skip)]` on `oauth`.
-/

/-- JSON values as emitted for this closed data model. -/
inductive Json where
  | str (s : String)
  | bool (b : Bool)
  | int (n : Int)
  | arr (elems : List Json)
  | obj (fields : List (String × Json))
deriving Repr

/-- A field that is emitted only when the optional value is present
(`skip_serializing_if = "Option::is_none"`). -/
def optField (key : String) : Option Json → List (String × Json)
  | none => []
  | some v => [(key, v)]

/-- The `urls` field, emitted only when non-empty
(`skip_serializing_if = "Vec::is_empty"`). -/
def urlsField (urls : List Json) : List (String × Json) :=
  if urls.isEmpty then [] else [("urls", Json.arr urls)]

/-- `Serialize for Url` (lines 337-344): fields `name` and `url`;
`primary` carries `#[serde(skip)]`. -/
def Url.toJson (u : Url) : Json :=
  Json.obj [("name", Json.str u.name), ("url", Json.str u.url)]

/-- `Serialize for SyntaxHighlight` (lines 1243-1252): `activated` always,
`theme` only when present. -/
def SyntaxHighlight.toJson (h : SyntaxHighlight) : Json :=
  Json.obj ([("activated", Json.bool h.activated)] ++ optField "theme" (h.theme.map Json.str))

/-- `Serialize for BasicAuth` (lines 1233-1239). -/
def BasicAuth.toJson (b : BasicAuth) : Json :=
  Json.obj [("username", Json.str b.username), ("password", Json.str b.password)]

/-- Serialized fields 1-5 of `Config`, in declaration order: the resolved URL
state. Split into groups only to keep each definition small; the concatenation
`Config.toJsonFields` below is the full serde field list. -/
def Config.fieldsUrlGroup (c : Config) : List (String × Json) :=
  optField "configUrl" (c.config_url.map Json.str) ++
  optField "dom_id" (c.dom_id.map Json.str) ++
  optField "url" (c.url.map Json.str) ++
  optField "urls.primaryName" (c.urls_primary_name.map Json.str) ++
  urlsField (c.urls.map Url.toJson)

/-- Serialized fields 6-14 of `Config`, in declaration order. -/
def Config.fieldsDisplayGroupA (c : Config) : List (String × Json) :=
  optField "queryConfigEnabled" (c.query_config_enabled.map Json.bool) ++
  optField "deepLinking" (c.deep_linking.map Json.bool) ++
  optField "displayOperationId" (c.display_operation_id.map Json.bool) ++
  optField "defaultModelsExpandDepth" (c.default_models_expand_depth.map Json.int) ++
  optField "defaultModelExpandDepth" (c.default_model_expand_depth.map Json.int) ++
  optField "defaultModelRendering" (c.default_model_rendering.map Json.str) ++
  optField "displayRequestDuration" (c.display_request_duration.map Json.bool) ++
  optField "docExpansion" (c.doc_expansion.map Json.str) ++
  optField "filter" (c.filter.map Json.bool)

/-- Serialized fields 15-21 of `Config`, in declaration order. -/
def Config.fieldsDisplayGroupB (c : Config) : List (String × Json) :=
  optField "maxDisplayedTags" (c.max_displayed_tags.map (fun n => Json.int (Int.ofNat n))) ++
  optField "showExtensions" (c.show_extensions.map Json.bool) ++
  optField "showCommonExtensions" (c.show_common_extensions.map Json.bool) ++
  optField "tryItOutEnabled" (c.try_it_out_enabled.map Json.bool) ++
  optField "requestSnippetsEnabled" (c.request_snippets_enabled.map Json.bool) ++
  optField "oauth2RedirectUrl" (c.oauth2_redirect_url.map Json.str) ++
  optField "showMutatedRequest" (c.show_mutated_request.map Json.bool)

/-- Serialized fields 22-29 of `Config`, in declaration order; the `oauth` field
sits between `persist_authorization` and `syntax_highlight` in the struct but
carries `#[serde(skip)]`, so no entry of the output corresponds to it. -/
def Config.fieldsTailGroup (c : Config) : List (String × Json) :=
  optField "supportedSubmitMethods"
    (c.supported_submit_methods.map (fun ms => Json.arr (ms.map Json.str))) ++
  optField "validatorUrl" (c.validator_url.map Json.str) ++
  optField "withCredentials" (c.with_credentials.map Json.bool) ++
  optField "persistAuthorization" (c.persist_authorization.map Json.bool) ++
  optField "syntaxHighlight" (c.syntax_highlight.map SyntaxHighlight.toJson) ++
  [("layout", Json.str c.layout)] ++
  optField "basicAuth" (c.basic_auth.map BasicAuth.toJson)

/-- The ordered field list serde emits for `Config` (struct lines 444-576):
declaration order, camelCase except the literal keys `dom_id` and
`urls.primaryName`, optional fields only when present, `urls` only when
non-empty, `oauth` never. -/
def Config.toJsonFields (c : Config) : List (String × Json) :=
  c.fieldsUrlGroup ++ c.fieldsDisplayGroupA ++ c.fieldsDisplayGroupB ++ c.fieldsTailGroup

/-- The emitted key of each field of the serialized `Config`. -/
def Config.jsonKeys (c : Config) : List String := c.toJsonFields.map Prod.fst

/-- One hexadecimal digit, lowercase, as serde_json prints it. -/
def hexDigitChar (n : Nat) : Char := "0123456789abcdef".toList.getD n '0'

/-- serde_json's string escaping: quote, backslash, the named control escapes,
`\u00XX` for the remaining control characters, everything else verbatim. -/
def escapeChar (c : Char) : String :=
  if c = '"' then "\\\""
  else if c = '\\' then "\\\\"
  else if c = '\x08' then "\\b"
  else if c = '\t' then "\\t"
  else if c = '\n' then "\\n"
  else if c = '\x0c' then "\\f"
  else if c = '\r' then "\\r"
  else if c.toNat < 0x20 then
    "\\u00" ++ String.singleton (hexDigitChar (c.toNat / 16)) ++
      String.singleton (hexDigitChar (c.toNat % 16))
  else String.singleton c

/-- A JSON string literal with serde_json's escaping. -/
def escapeString (s : String) : String :=
  "\"" ++ String.join (s.toList.map escapeChar) ++ "\""

/-- `n` levels of serde_json's pretty-printer indentation (two spaces each). -/
def indentStr (n : Nat) : String := String.join (List.replicate n "  ")

mutual
/-- serde_json pretty printing with two-space indentation, at indentation
level `ind`. -/
def prettyJson (ind : Nat) : Json → String
  | .str s => escapeString s
  | .bool b => if b then "true" else "false"
  | .int n => toString n
  | .arr [] => "[]"
  | .arr (x :: xs) =>
    "[\n" ++ prettyElems (ind + 1) x xs ++ "\n" ++ indentStr ind ++ "]"
  | .obj [] => "\x7b\x7d"
  | .obj (f :: fs) =>
    "\x7b\n" ++ prettyMembers (ind + 1) f fs ++ "\n" ++ indentStr ind ++ "\x7d"
termination_by j => sizeOf j

/-- The comma-and-newline separated elements of a non-empty pretty-printed array. -/
def prettyElems (ind : Nat) (x : Json) (xs : List Json) : String :=
  match xs with
  | [] => indentStr ind ++ prettyJson ind x
  | y :: ys => indentStr ind ++ prettyJson ind x ++ ",\n" ++ prettyElems ind y ys
termination_by sizeOf x + sizeOf xs

/-- The comma-and-newline separated members of a non-empty pretty-printed object. -/
def prettyMembers (ind : Nat) (f : String × Json) (fs : List (String × Json)) : String :=
  match f, fs with
  | (k, v), [] => indentStr ind ++ escapeString k ++ ": " ++ prettyJson ind v
  | (k, v), g :: gs =>
    indentStr ind ++ escapeString k ++ ": " ++ prettyJson ind v ++ ",\n" ++
      prettyMembers ind g gs
termination_by sizeOf f + sizeOf fs
end

/-- `serde_json::to_string_pretty(&config)` — total for this closed data model
(all leaf types serialize infallibly, so the `Err` arm of `format_config` is dead). -/
def to_string_pretty (c : Config) : String :=
  prettyJson 0 (Json.obj c.toJsonFields)

/-- Model of Rust `str::replace(pattern, replacement)`: scan left to right, replace
each non-overlapping occurrence, never rescanning the replacement. The source only
calls this with the non-empty pattern `"{{config}}"`; the `pat ≠ []` guard makes the
empty-pattern case (which Rust treats differently) an identity, unreachable here. -/
def replaceList (pat rep : List Char) : List Char → List Char
  | [] => []
  | c :: rest =>
    if pat ≠ [] ∧ pat.isPrefixOf (c :: rest) = true then
      rep ++ replaceList pat rep (rest.drop (pat.length - 1))
    else
      c :: replaceList pat rep rest
termination_by s => s.length
decreasing_by
  · simp only [List.length_drop, List.length_cons]
    omega
  · simp only [List.length_cons]
    omega

/-- `str::replace` lifted to `String`. -/
def strReplace (s pat rep : String) : String :=
  (replaceList pat.toList rep.toList s.toList).asString

/-- `DEFAULT_CONFIG` (lines 1314-1324), the fixed bootstrap template with the
`presets` and `plugins` sibling entries. -/
def DEFAULT_CONFIG : String :=
  "\nwindow.ui = SwaggerUIBundle(\x7b\n  \x7b\x7bconfig\x7d\x7d,\n  presets: [\n    SwaggerUIBundle.presets.apis,\n    SwaggerUIStandalonePreset\n  ],\n  plugins: [\n    SwaggerUIBundle.plugins.DownloadUrl\n  ],\n\x7d);"

/-- `format_config` (lines 1302-1312): pretty-print the config and substitute
`{{config}}` in `file` with the JSON minus its first two and last two bytes.
The Rust code slices bytes `[2 .. len - 2]`; the pretty-printed object always
begins with the two ASCII bytes of `{` and a newline and ends with a newline and
`}`, so byte slicing coincides with dropping the first two and last two
characters, which is how the slice is modelled. -/
def format_config (config : Config) (file : String) : String :=
  let config_json := (to_string_pretty config).toList
  strReplace file "\x7b\x7bconfig\x7d\x7d"
    ((config_json.take (config_json.length - 2)).drop 2).asString

/-! ## The asset registry and the page renderer -/

/-- `SwaggerUiStaticFile` (lines 267-282): the closed set of six assets. -/
inductive SwaggerUiStaticFile where
  | Css
  | IndexCss
  | Js
  | StandalonePresetJs
  | Favicon16
  | Favicon32
deriving Repr, DecidableEq

/-- `SwaggerUiStaticFile::all()` (lines 294-303). -/
def SwaggerUiStaticFile.all : List SwaggerUiStaticFile :=
  [.Css, .IndexCss, .Js, .StandalonePresetJs, .Favicon16, .Favicon32]

/-- `SwaggerUiStaticFile::file_name` (lines 323-332). -/
def SwaggerUiStaticFile.file_name : SwaggerUiStaticFile → String
  | .Css => "swagger-ui.css"
  | .IndexCss => "index.css"
  | .Js => "swagger-ui-bundle.js"
  | .StandalonePresetJs => "swagger-ui-standalone-preset.js"
  | .Favicon16 => "favicon-16x16.png"
  | .Favicon32 => "favicon-32x32.png"

/-- `SwaggerUiStaticFile::default_path` (lines 317-319). -/
def SwaggerUiStaticFile.default_path (f : SwaggerUiStaticFile) : String :=
  "./" ++ f.file_name

/-- Modelled from the spec: the byte contents of the six bundled assets are the
`include_bytes!` blobs under `res/`, which are not part of the provided sources;
the spec treats them as opaque, compiled-in, immutable blobs, so each is modelled
as an atom of this type. -/
inductive AssetBlob where
  | cssBytes
  | indexCssBytes
  | jsBytes
  | standalonePresetJsBytes
  | favicon16Bytes
  | favicon32Bytes
deriving Repr, DecidableEq

/-- The fixed association of each asset with its compiled-in content blob,
as produced by `SwaggerUi::static_files()` (lines 134-161), which is an
associated function that never reads a `SwaggerUi` instance. -/
def staticFileBytes : SwaggerUiStaticFile → AssetBlob
  | .Css => .cssBytes
  | .IndexCss => .indexCssBytes
  | .Js => .jsBytes
  | .StandalonePresetJs => .standalonePresetJsBytes
  | .Favicon16 => .favicon16Bytes
  | .Favicon32 => .favicon32Bytes

/-- `SwaggerUi::static_files()` (lines 134-161): the fixed list of the six
assets paired with their contents, in declaration order. -/
def static_files : List (SwaggerUiStaticFile × AssetBlob) :=
  SwaggerUiStaticFile.all.map (fun f => (f, staticFileBytes f))

/-- `HashMap::insert`: replace any existing binding for the key, in the
association-list model of the path map. -/
def mapInsert (m : List (SwaggerUiStaticFile × String)) (k : SwaggerUiStaticFile)
    (v : String) : List (SwaggerUiStaticFile × String) :=
  m.filter (fun e => e.1 != k) ++ [(k, v)]

/-- `HashMap::get` in the association-list model. -/
def mapGet (m : List (SwaggerUiStaticFile × String)) (k : SwaggerUiStaticFile) :
    Option String :=
  (m.find? (fun e => e.1 == k)).map (fun e => e.2)

/-- `SwaggerUiStaticFile::default_map()` (lines 306-314): insert the default
path of every asset. -/
def SwaggerUiStaticFile.default_map : List (SwaggerUiStaticFile × String) :=
  SwaggerUiStaticFile.all.foldl (fun m f => mapInsert m f f.default_path) []

/-- `SwaggerUi` (lines 49-53). -/
structure SwaggerUi where
  title : String
  config : Config
  file_paths : List (SwaggerUiStaticFile × String)

/-- `SwaggerUi::new()` (lines 78-84). -/
def SwaggerUi.new : SwaggerUi where
  title := "Swagger UI"
  config := Config.new
  file_paths := SwaggerUiStaticFile.default_map

/-- `SwaggerUi::title` (lines 117-120). -/
def SwaggerUi.setTitle (s : SwaggerUi) (t : String) : SwaggerUi :=
  { s with title := t }

/-- `SwaggerUi::config` (lines 102-104) hands out `&mut Config`; any sequence of
`Config` setter calls through it is a function of the old config alone and leaves
`title` and `file_paths` untouched. -/
def SwaggerUi.modifyConfig (s : SwaggerUi) (g : Config → Config) : SwaggerUi :=
  { s with config := g s.config }

/-- `SwaggerUi::override_file_path` (lines 185-187). -/
def SwaggerUi.override_file_path (s : SwaggerUi) (static_file : SwaggerUiStaticFile)
    (path : String) : SwaggerUi :=
  { s with file_paths := mapInsert s.file_paths static_file path }

/-- The HTML document produced by `SwaggerUi::serve` (lines 238-259). -/
def renderHtml (title css_path index_css_path js_path standalone_preset_js_path
    config : String) : String :=
  "<!DOCTYPE html>\n<html lang=\"en\">\n<head>\n    <meta charset=\"UTF-8\">\n    <title>" ++
  title ++
  "</title>\n    <link rel=\"stylesheet\" type=\"text/css\" href=\"" ++
  css_path ++
  "\" />\n    <link rel=\"stylesheet\" type=\"text/css\" href=\"" ++
  index_css_path ++
  "\" />\n</head>\n<body>\n<div id=\"swagger-ui\"></div>\n<script src=\"" ++
  js_path ++
  "\" charset=\"UTF-8\"></script>\n<script src=\"" ++
  standalone_preset_js_path ++
  "\" charset=\"UTF-8\"></script>\n<script>\n    window.onload = () => \x7b\n        " ++
  config ++
  "\n    \x7d;\n</script>\n</body>\n</html>\n"

/-- `SwaggerUi::serve` (lines 217-260). The four `.expect("all files should be
present")` lookups are modelled by the `none` arm: `serve` answers `none` exactly
when one of the path lookups fails (the panic branch of the source). -/
def SwaggerUi.serve (s : SwaggerUi) : Option String :=
  match mapGet s.file_paths .Css, mapGet s.file_paths .IndexCss,
      mapGet s.file_paths .Js, mapGet s.file_paths .StandalonePresetJs with
  | some css_path, some index_css_path, some js_path, some standalone_preset_js_path =>
    some (renderHtml s.title css_path index_css_path js_path
      standalone_preset_js_path (format_config s.config DEFAULT_CONFIG))
  | _, _, _, _ => none

/-- The bytes the host is told to serve for an asset. `static_files()` is an
associated function that ignores the instance, so this is constant in `s`;
taking the instance as an argument lets frame properties about instance
mutation mention the served bytes. -/
def SwaggerUi.assetBytes (_s : SwaggerUi) (f : SwaggerUiStaticFile) : AssetBlob :=
  staticFileBytes f

/-- Spec-side restatement of the primary-name rule of §4.2: the name of the
first element, in input order, whose `primary` flag is true; `none` when no
element is marked primary. -/
def primaryNameSpec : List Url → Option String
  | [] => none
  | u :: rest => if u.primary then some u.name else primaryNameSpec rest

/-- Whether `pat` occurs as a contiguous sublist of `s`. Used to state that the
fixed template pieces around `{{config}}` contain no further occurrence of the
pattern. -/
def hasOccur (pat : List Char) : List Char → Bool
  | [] => pat.isEmpty
  | c :: rest => pat.isPrefixOf (c :: rest) || hasOccur pat rest

/-- The part of `DEFAULT_CONFIG` strictly before the `{{config}}` placeholder. -/
def CONFIG_TEMPLATE_BEFORE : String :=
  "\nwindow.ui = SwaggerUIBundle(\x7b\n  "

/-- The part of `DEFAULT_CONFIG` strictly after the `{{config}}` placeholder,
holding the two fixed sibling keys `presets` and `plugins`. -/
def CONFIG_TEMPLATE_AFTER : String :=
  ",\n  presets: [\n    SwaggerUIBundle.presets.apis,\n    SwaggerUIStandalonePreset\n  ],\n  plugins: [\n    SwaggerUIBundle.plugins.DownloadUrl\n  ],\n\x7d);"

/-- The `SwaggerUi` values reachable through the public API: constructed by `new`,
then mutated by any sequence of `title`, config-setter and `override_file_path`
calls. -/
inductive Reachable : SwaggerUi → Prop where
  | new : Reachable SwaggerUi.new
  | title (s : SwaggerUi) (t : String) : Reachable s → Reachable (s.setTitle t)
  | config (s : SwaggerUi) (g : Config → Config) :
      Reachable s → Reachable (s.modifyConfig g)
  | override (s : SwaggerUi) (f : SwaggerUiStaticFile) (p : String) :
      Reachable s → Reachable (s.override_file_path f p)

/-! ## Helper lemmas -/

theorem find?_map_name_eq_primaryNameSpec (us : List Url) :
    ((us.find? fun url => url.primary).map fun url => url.name) = primaryNameSpec us := by
  induction us with
  | nil => rfl
  | cons u rest ih =>
    by_cases hp : u.primary = true <;>
      simp [List.find?_cons, hp, primaryNameSpec, ih]

theorem fst_mem_optField {s k : String} {o : Option Json} :
    s ∈ (optField k o).map Prod.fst ↔ s = k ∧ o ≠ none := by
  cases o <;> simp [optField]

theorem fst_mem_urlsField {s : String} {js : List Json} :
    s ∈ (urlsField js).map Prod.fst ↔ s = "urls" ∧ js ≠ [] := by
  cases js <;> simp [urlsField]

/-- Key membership in the serialized field list, field by field. -/
theorem mem_jsonKeys (c : Config) (k : String) :
    k ∈ c.jsonKeys ↔
      (k = "configUrl" ∧ c.config_url ≠ none) ∨
      (k = "dom_id" ∧ c.dom_id ≠ none) ∨
      (k = "url" ∧ c.url ≠ none) ∨
      (k = "urls.primaryName" ∧ c.urls_primary_name ≠ none) ∨
      (k = "urls" ∧ c.urls ≠ []) ∨
      (k = "queryConfigEnabled" ∧ c.query_config_enabled ≠ none) ∨
      (k = "deepLinking" ∧ c.deep_linking ≠ none) ∨
      (k = "displayOperationId" ∧ c.display_operation_id ≠ none) ∨
      (k = "defaultModelsExpandDepth" ∧ c.default_models_expand_depth ≠ none) ∨
      (k = "defaultModelExpandDepth" ∧ c.default_model_expand_depth ≠ none) ∨
      (k = "defaultModelRendering" ∧ c.default_model_rendering ≠ none) ∨
      (k = "displayRequestDuration" ∧ c.display_request_duration ≠ none) ∨
      (k = "docExpansion" ∧ c.doc_expansion ≠ none) ∨
      (k = "filter" ∧ c.filter ≠ none) ∨
      (k = "maxDisplayedTags" ∧ c.max_displayed_tags ≠ none) ∨
      (k = "showExtensions" ∧ c.show_extensions ≠ none) ∨
      (k = "showCommonExtensions" ∧ c.show_common_extensions ≠ none) ∨
      (k = "tryItOutEnabled" ∧ c.try_it_out_enabled ≠ none) ∨
      (k = "requestSnippetsEnabled" ∧ c.request_snippets_enabled ≠ none) ∨
      (k = "oauth2RedirectUrl" ∧ c.oauth2_redirect_url ≠ none) ∨
      (k = "showMutatedRequest" ∧ c.show_mutated_request ≠ none) ∨
      (k = "supportedSubmitMethods" ∧ c.supported_submit_methods ≠ none) ∨
      (k = "validatorUrl" ∧ c.validator_url ≠ none) ∨
      (k = "withCredentials" ∧ c.with_credentials ≠ none) ∨
      (k = "persistAuthorization" ∧ c.persist_authorization ≠ none) ∨
      (k = "syntaxHighlight" ∧ c.syntax_highlight ≠ none) ∨
      k = "layout" ∨
      (k = "basicAuth" ∧ c.basic_auth ≠ none) := by
  simp only [Config.jsonKeys, Config.toJsonFields, Config.fieldsUrlGroup,
    Config.fieldsDisplayGroupA, Config.fieldsDisplayGroupB, Config.fieldsTailGroup,
    List.map_append, List.mem_append, fst_mem_optField, fst_mem_urlsField,
    List.map_cons, List.map_nil, List.mem_singleton, Option.map_eq_none', ne_eq,
    List.map_eq_nil_iff, or_assoc]

theorem mapGet_append (l1 l2 : List (SwaggerUiStaticFile × String))
    (f : SwaggerUiStaticFile) :
    mapGet (l1 ++ l2) f = (mapGet l1 f).or (mapGet l2 f) := by
  unfold mapGet
  rw [List.find?_append]
  cases l1.find? (fun e => e.1 == f) <;> simp

theorem mapGet_filter_self (m : List (SwaggerUiStaticFile × String))
    (k : SwaggerUiStaticFile) :
    mapGet (m.filter fun e => e.1 != k) k = none := by
  induction m with
  | nil => rfl
  | cons e rest ih =>
    by_cases hek : e.1 = k
    · have h1 : (e.1 != k) = false := by simp [hek]
      simp only [List.filter_cons, h1, Bool.false_eq_true, if_false]
      exact ih
    · have h1 : (e.1 != k) = true := bne_iff_ne.mpr hek
      have h2 : (e.1 == k) = false := beq_eq_false_iff_ne.mpr hek
      simp [mapGet, List.filter_cons, h1, List.find?_cons, h2]

theorem mapGet_filter_ne (m : List (SwaggerUiStaticFile × String))
    (k f : SwaggerUiStaticFile) (h : f ≠ k) :
    mapGet (m.filter fun e => e.1 != k) f = mapGet m f := by
  induction m with
  | nil => rfl
  | cons e rest ih =>
    by_cases hek : e.1 = k
    · have h1 : (e.1 != k) = false := by simp [hek]
      have h2 : (e.1 == f) = false := by
        subst hek
        exact beq_eq_false_iff_ne.mpr fun hh => h hh.symm
      simpa [mapGet, List.filter_cons, h1, List.find?_cons, h2] using ih
    · have h1 : (e.1 != k) = true := bne_iff_ne.mpr hek
      by_cases hf : e.1 = f
      · have h2 : (e.1 == f) = true := beq_iff_eq.mpr hf
        simp [mapGet, List.filter_cons, h1, List.find?_cons, h2]
      · have h2 : (e.1 == f) = false := beq_eq_false_iff_ne.mpr hf
        simpa [mapGet, List.filter_cons, h1, List.find?_cons, h2] using ih

/-- `HashMap` get-after-insert: the inserted key answers the new value, every
other key answers as before. -/
theorem mapGet_mapInsert (m : List (SwaggerUiStaticFile × String))
    (k : SwaggerUiStaticFile) (v : String) (f : SwaggerUiStaticFile) :
    mapGet (mapInsert m k v) f = if f = k then some v else mapGet m f := by
  unfold mapInsert
  rw [mapGet_append]
  by_cases h : f = k
  · subst h
    rw [mapGet_filter_self]
    have h3 : mapGet [(f, v)] f = some v := by
      unfold mapGet
      rw [List.find?_cons_of_pos _ (by simp)]
      rfl
    rw [h3, if_pos rfl, Option.none_or]
  · rw [mapGet_filter_ne _ _ _ h]
    have h2 : (k == f) = false := beq_eq_false_iff_ne.mpr fun hh => h hh.symm
    have h3 : mapGet [(k, v)] f = none := by
      unfold mapGet
      rw [List.find?_cons_of_neg _ (by simp [h2])]
      rfl
    rw [h3, if_neg h, Option.or_none]

theorem replaceList_cons_neg (pat rep : List Char) (c : Char) (rest : List Char)
    (h : pat.isPrefixOf (c :: rest) = false) :
    replaceList pat rep (c :: rest) = c :: replaceList pat rep rest := by
  simp [replaceList, h]

/-- A replacement fires exactly at an occurrence of the pattern. -/
theorem replaceList_append_self (pat rep rest : List Char) (h : pat ≠ []) :
    replaceList pat rep (pat ++ rest) = rep ++ replaceList pat rep rest := by
  cases hp : pat with
  | nil => exact absurd hp h
  | cons p ps =>
    have hpre : (p :: ps).isPrefixOf ((p :: ps) ++ rest) = true :=
      List.isPrefixOf_iff_prefix.mpr (List.prefix_append _ _)
    have hdrop : (ps ++ rest).drop ((p :: ps).length - 1) = rest := by
      simp [List.drop_left]
    simp [replaceList, hpre, hdrop]

/-- Where the pattern has no occurrence, the scan is the identity. -/
theorem replaceList_of_no_occur (pat rep : List Char) :
    ∀ s : List Char, hasOccur pat s = false → replaceList pat rep s = s := by
  intro s
  induction s with
  | nil => intro _; simp [replaceList]
  | cons c rest ih =>
    intro hs
    rw [hasOccur] at hs
    rcases Bool.or_eq_false_iff.mp hs with ⟨h1, h2⟩
    rw [replaceList_cons_neg pat rep c rest h1, ih h2]

/-- Whether a pattern is a prefix is decided by the first `pat.length`
characters. -/
theorem isPrefixOf_append_of_le_length (pat : List Char) :
    ∀ u v : List Char, pat.length ≤ u.length →
      pat.isPrefixOf (u ++ v) = pat.isPrefixOf u := by
  induction pat with
  | nil => intro u v _; simp [List.isPrefixOf]
  | cons p ps ih =>
    intro u v h
    cases u with
    | nil => simp at h
    | cons a u2 =>
      show (p == a && ps.isPrefixOf (u2 ++ v)) = (p == a && ps.isPrefixOf u2)
      rw [ih u2 v (by simpa using h)]

/-- Scanning across a region where no occurrence starts leaves it untouched. -/
theorem replaceList_append_left (pat rep : List Char) :
    ∀ pre tail : List Char,
      (∀ n, n < pre.length → pat.isPrefixOf (pre.drop n ++ tail) = false) →
      replaceList pat rep (pre ++ tail) = pre ++ replaceList pat rep tail := by
  intro pre
  induction pre with
  | nil => intro tail _; rfl
  | cons c pre2 ih =>
    intro tail h
    have h0 : pat.isPrefixOf (c :: (pre2 ++ tail)) = false := by
      simpa using h 0 (by simp)
    rw [List.cons_append, replaceList_cons_neg pat rep c (pre2 ++ tail) h0,
      ih tail fun n hn => by simpa using h (n + 1) (by simpa using hn),
      List.cons_append]

/-- The composite splice: one occurrence of the pattern between an
occurrence-free front and an occurrence-free back is replaced and nothing
else changes. -/
theorem replaceList_splice (pat rep pre post : List Char) (hp : pat ≠ [])
    (hpre : ∀ n, n < pre.length → pat.isPrefixOf (pre.drop n ++ pat) = false)
    (hpost : hasOccur pat post = false) :
    replaceList pat rep (pre ++ pat ++ post) = pre ++ rep ++ post := by
  rw [List.append_assoc]
  rw [replaceList_append_left pat rep pre (pat ++ post) ?hb]
  · rw [replaceList_append_self pat rep post hp,
      replaceList_of_no_occur pat rep post hpost, List.append_assoc]
  case hb =>
    intro n hn
    calc pat.isPrefixOf (pre.drop n ++ (pat ++ post))
        = pat.isPrefixOf ((pre.drop n ++ pat) ++ post) := by
          rw [List.append_assoc]
      _ = pat.isPrefixOf (pre.drop n ++ pat) :=
          isPrefixOf_append_of_le_length pat _ post (by simp)
      _ = false := hpre n hn

/-- Removing the first two and last two characters of a brace-and-newline
wrapped body recovers the body. -/
theorem strip_braces (bs : List Char) :
    ((('\x7b' :: '\n' :: (bs ++ ['\n', '\x7d'])).take
      (('\x7b' :: '\n' :: (bs ++ ['\n', '\x7d'])).length - 2)).drop 2) = bs := by
  have h1 : ('\x7b' :: '\n' :: (bs ++ ['\n', '\x7d'])).length - 2 = bs.length + 2 := by
    simp [List.length_append]
  rw [h1, List.take_succ_cons, List.take_succ_cons, List.drop_succ_cons,
    List.drop_succ_cons, List.drop_zero]
  exact List.take_left bs ['\n', '\x7d']

/-! ## Claims -/

/-- C3: for a single-element input `[e]`, `primaryName` becomes `Some(e.name)`
exactly when `e.primary` is true (also when `e.name` is empty, yielding
`Some("")`); an empty name yields `url = Some(e.url)` and `urls = []`, a
non-empty name yields `url = None` and `urls = [e]`. -/
theorem C3_single_url_rule (c : Config) (e : Url) :
    (c.set_urls [e]).urls_primary_name = (if e.primary then some e.name else none) ∧
    (c.set_urls [e]).url = (if e.name.isEmpty then some e.url else none) ∧
    (c.set_urls [e]).urls = (if e.name.isEmpty then ([] : List Url) else [e]) :=
  ⟨rfl, rfl, rfl⟩

/-- C2 counterexample: the empty-sequence call is not a no-op. On a config whose
previous resolver call produced a primary name and a non-empty selector list, a
subsequent empty call erases both, so the resulting config differs. -/
theorem C2_counterexample :
    (Config.default.set_urls [Url.with_primary "A" "/a" true]).set_urls [] ≠
      Config.default.set_urls [Url.with_primary "A" "/a" true] := by
  decide

/-- C2 amended: a zero-element call runs the multiple-URL rule on the empty
list: it resets `urls` to `[]` and `primaryName` to `None`, and leaves `url`
and every other field unchanged; it is a no-op only when `urls` was already
empty and `primaryName` already `None`. -/
theorem C2_empty_input (c : Config) :
    c.set_urls [] = { c with urls_primary_name := none, urls := [] } :=
  rfl

/-- C8 counterexample: the bare-string conversion stores the string verbatim, so
the single-element call on `" /a.json"` (leading space) does not resolve `url`
to `"/a.json"`. -/
theorem C8_counterexample :
    (Config.default.set_urls [Url.ofStr " /a.json"]).url ≠ some "/a.json" := by
  decide

/-- C8 amended: the resolver applied to `[" /a.json"]` yields
`url = Some(" /a.json")` — the leading space is preserved, no trimming
happens — together with `urls = []` and `primaryName = None`. -/
theorem C8_single_bare_url :
    (Config.default.set_urls [Url.ofStr " /a.json"]).url = some " /a.json" ∧
    (Config.default.set_urls [Url.ofStr " /a.json"]).urls = [] ∧
    (Config.default.set_urls [Url.ofStr " /a.json"]).urls_primary_name = none :=
  ⟨rfl, rfl, rfl⟩

/-- C10: serializing a freshly constructed default config emits exactly the
three fields `dom_id = "#swagger-ui"`, `deepLinking = true` and
`layout = "StandaloneLayout"`; in particular `deepLinking` is present and true
by default. -/
theorem C10_default_serialization :
    Config.default.toJsonFields =
      [("dom_id", Json.str "#swagger-ui"),
       ("deepLinking", Json.bool true),
       ("layout", Json.str "StandaloneLayout")] :=
  rfl

/-- C1 counterexample: after `urls(["/a"])` (single, unnamed: `url` is set) a
second call with two named URLs leaves `url = Some("/a")` while also filling
`urls`, so neither `{url set, urls empty}` nor `{url unset, urls non-empty}`
holds, and the earlier `url` value survives the second call. -/
theorem C1_counterexample :
    ¬ Xor'
      (((Config.default.set_urls [Url.ofStr "/a"]).set_urls
          [Url.new "A" "/a.json", Url.new "B" "/b.json"]).url ≠ none ∧
        ((Config.default.set_urls [Url.ofStr "/a"]).set_urls
          [Url.new "A" "/a.json", Url.new "B" "/b.json"]).urls = [])
      (((Config.default.set_urls [Url.ofStr "/a"]).set_urls
          [Url.new "A" "/a.json", Url.new "B" "/b.json"]).url = none ∧
        ((Config.default.set_urls [Url.ofStr "/a"]).set_urls
          [Url.new "A" "/a.json", Url.new "B" "/b.json"]).urls ≠ []) ∧
    ((Config.default.set_urls [Url.ofStr "/a"]).set_urls
      [Url.new "A" "/a.json", Url.new "B" "/b.json"]).url = some "/a" := by
  constructor
  · decide
  · rfl

/-- C1 amended: on a config whose `url` is unset, any resolver call with a
non-empty input establishes exactly one of `{url set, urls empty}` and
`{url unset, urls non-empty}`. A single-element call recomputes `url`, `urls`
and `primaryName` from the element alone (full overwrite, no dependence on the
previous state); a call with any other length — zero included — recomputes
`urls` and `primaryName` from the input alone but leaves `url` unchanged, so a
`url` set by an earlier single-element call survives. -/
theorem C1_url_state_invariant (c c2 : Config) (us : List Url) :
    (c.url = none → us ≠ [] →
      Xor' ((c.set_urls us).url ≠ none ∧ (c.set_urls us).urls = [])
        ((c.set_urls us).url = none ∧ (c.set_urls us).urls ≠ [])) ∧
    (us.length = 1 →
      (c.set_urls us).url = (c2.set_urls us).url ∧
      (c.set_urls us).urls = (c2.set_urls us).urls ∧
      (c.set_urls us).urls_primary_name = (c2.set_urls us).urls_primary_name) ∧
    (us.length ≠ 1 →
      (c.set_urls us).url = c.url ∧
      (c.set_urls us).urls = (c2.set_urls us).urls ∧
      (c.set_urls us).urls_primary_name = (c2.set_urls us).urls_primary_name) := by
  refine ⟨?_, ?_, ?_⟩
  · intro hu hne
    by_cases hl : us.length = 1
    · obtain ⟨e, rfl⟩ := List.length_eq_one.mp hl
      by_cases hn : e.name.isEmpty <;>
        simp [Config.set_urls, Config.single_url, hn, Xor']
    · simp only [Config.set_urls, hl, if_false, Config.multiple_urls]
      simp [Xor', hu, hne]
  · intro hl
    obtain ⟨e, rfl⟩ := List.length_eq_one.mp hl
    exact ⟨rfl, rfl, rfl⟩
  · intro hl
    simp [Config.set_urls, hl, Config.multiple_urls]

/-- C1 witness: the invariant part applied to the default config and one
bare URL. -/
theorem C1_witness :
    Config.default.url = none ∧ ([Url.ofStr "/a"] : List Url) ≠ [] ∧
    Xor' ((Config.default.set_urls [Url.ofStr "/a"]).url ≠ none ∧
        (Config.default.set_urls [Url.ofStr "/a"]).urls = [])
      ((Config.default.set_urls [Url.ofStr "/a"]).url = none ∧
        (Config.default.set_urls [Url.ofStr "/a"]).urls ≠ []) :=
  ⟨rfl, by decide,
    (C1_url_state_invariant Config.default Config.default [Url.ofStr "/a"]).1 rfl
      (by decide)⟩

/-- C4: for two or more URLs, `primaryName` is the name of the first element in
input order whose `primary` flag is set (`None` when there is none), every
element with an empty name is renamed to its own url, and the resolved list has
the same length and order as the input — position by position, element `i` of
the result is exactly element `i` of the input after the empty-name renaming. -/
theorem C4_multiple_urls_rule (c : Config) (us : List Url) (h : 2 ≤ us.length) :
    (c.set_urls us).urls_primary_name = primaryNameSpec us ∧
    (c.set_urls us).urls.length = us.length ∧
    (∀ i : Nat, (c.set_urls us).urls[i]? =
      (us[i]?).map fun u => if u.name.isEmpty then { u with name := u.url } else u) := by
  have hl : us.length ≠ 1 := by omega
  refine ⟨?_, ?_, ?_⟩
  · simp [Config.set_urls, hl, Config.multiple_urls,
      find?_map_name_eq_primaryNameSpec]
  · simp [Config.set_urls, hl, Config.multiple_urls]
  · intro i
    simp [Config.set_urls, hl, Config.multiple_urls]

/-- C4 witness: the rule evaluated on a concrete two-element input, one primary
and named, one bare. -/
theorem C4_witness :
    2 ≤ ([Url.with_primary "A" "/a.json" true, Url.ofStr "/b.json"] : List Url).length ∧
    (Config.default.set_urls
        [Url.with_primary "A" "/a.json" true, Url.ofStr "/b.json"]).urls_primary_name =
      primaryNameSpec [Url.with_primary "A" "/a.json" true, Url.ofStr "/b.json"] ∧
    (Config.default.set_urls
        [Url.with_primary "A" "/a.json" true, Url.ofStr "/b.json"]).urls[1]? =
      some { name := "/b.json", url := "/b.json", primary := false } := by
  refine ⟨by decide, ?_, ?_⟩
  · exact (C4_multiple_urls_rule Config.default
      [Url.with_primary "A" "/a.json" true, Url.ofStr "/b.json"] (by decide)).1
  · have := (C4_multiple_urls_rule Config.default
      [Url.with_primary "A" "/a.json" true, Url.ofStr "/b.json"] (by decide)).2.2 1
    rw [this]
    rfl

/-- C5: the serialized config omits every optional field whose value is absent
(each optional key is present exactly when its field is set), omits `urls` when
the list is empty, always carries `layout`, never emits any `oauth` key
regardless of whether the side-channel field was set, and every emitted key
belongs to the fixed camelCase table whose two non-camelCase exceptions are the
literal keys `dom_id` and `urls.primaryName`. -/
theorem C5_serialization_shape (c : Config) :
    ("configUrl" ∈ c.jsonKeys ↔ c.config_url ≠ none) ∧
    ("dom_id" ∈ c.jsonKeys ↔ c.dom_id ≠ none) ∧
    ("url" ∈ c.jsonKeys ↔ c.url ≠ none) ∧
    ("urls.primaryName" ∈ c.jsonKeys ↔ c.urls_primary_name ≠ none) ∧
    ("urls" ∈ c.jsonKeys ↔ c.urls ≠ []) ∧
    ("queryConfigEnabled" ∈ c.jsonKeys ↔ c.query_config_enabled ≠ none) ∧
    ("deepLinking" ∈ c.jsonKeys ↔ c.deep_linking ≠ none) ∧
    ("displayOperationId" ∈ c.jsonKeys ↔ c.display_operation_id ≠ none) ∧
    ("defaultModelsExpandDepth" ∈ c.jsonKeys ↔ c.default_models_expand_depth ≠ none) ∧
    ("defaultModelExpandDepth" ∈ c.jsonKeys ↔ c.default_model_expand_depth ≠ none) ∧
    ("defaultModelRendering" ∈ c.jsonKeys ↔ c.default_model_rendering ≠ none) ∧
    ("displayRequestDuration" ∈ c.jsonKeys ↔ c.display_request_duration ≠ none) ∧
    ("docExpansion" ∈ c.jsonKeys ↔ c.doc_expansion ≠ none) ∧
    ("filter" ∈ c.jsonKeys ↔ c.filter ≠ none) ∧
    ("maxDisplayedTags" ∈ c.jsonKeys ↔ c.max_displayed_tags ≠ none) ∧
    ("showExtensions" ∈ c.jsonKeys ↔ c.show_extensions ≠ none) ∧
    ("showCommonExtensions" ∈ c.jsonKeys ↔ c.show_common_extensions ≠ none) ∧
    ("tryItOutEnabled" ∈ c.jsonKeys ↔ c.try_it_out_enabled ≠ none) ∧
    ("requestSnippetsEnabled" ∈ c.jsonKeys ↔ c.request_snippets_enabled ≠ none) ∧
    ("oauth2RedirectUrl" ∈ c.jsonKeys ↔ c.oauth2_redirect_url ≠ none) ∧
    ("showMutatedRequest" ∈ c.jsonKeys ↔ c.show_mutated_request ≠ none) ∧
    ("supportedSubmitMethods" ∈ c.jsonKeys ↔ c.supported_submit_methods ≠ none) ∧
    ("validatorUrl" ∈ c.jsonKeys ↔ c.validator_url ≠ none) ∧
    ("withCredentials" ∈ c.jsonKeys ↔ c.with_credentials ≠ none) ∧
    ("persistAuthorization" ∈ c.jsonKeys ↔ c.persist_authorization ≠ none) ∧
    ("syntaxHighlight" ∈ c.jsonKeys ↔ c.syntax_highlight ≠ none) ∧
    ("layout" ∈ c.jsonKeys) ∧
    ("basicAuth" ∈ c.jsonKeys ↔ c.basic_auth ≠ none) ∧
    ("oauth" ∉ c.jsonKeys) ∧
    (∀ k ∈ c.jsonKeys, k ∈
      (["configUrl", "dom_id", "url", "urls.primaryName", "urls",
        "queryConfigEnabled", "deepLinking", "displayOperationId",
        "defaultModelsExpandDepth", "defaultModelExpandDepth",
        "defaultModelRendering", "displayRequestDuration", "docExpansion",
        "filter", "maxDisplayedTags", "showExtensions", "showCommonExtensions",
        "tryItOutEnabled", "requestSnippetsEnabled", "oauth2RedirectUrl",
        "showMutatedRequest", "supportedSubmitMethods", "validatorUrl",
        "withCredentials", "persistAuthorization", "syntaxHighlight", "layout",
        "basicAuth"] : List String)) := by
  refine ⟨?_, ?_, ?_, ?_, ?_, ?_, ?_, ?_, ?_, ?_, ?_, ?_, ?_, ?_, ?_, ?_, ?_,
    ?_, ?_, ?_, ?_, ?_, ?_, ?_, ?_, ?_, ?_, ?_, ?_, ?_⟩ <;>
    try simp [mem_jsonKeys]
  intro k hk
  rcases hk with ⟨rfl, -⟩ | ⟨rfl, -⟩ | ⟨rfl, -⟩ | ⟨rfl, -⟩ | ⟨rfl, -⟩ | ⟨rfl, -⟩ |
    ⟨rfl, -⟩ | ⟨rfl, -⟩ | ⟨rfl, -⟩ | ⟨rfl, -⟩ | ⟨rfl, -⟩ | ⟨rfl, -⟩ | ⟨rfl, -⟩ |
    ⟨rfl, -⟩ | ⟨rfl, -⟩ | ⟨rfl, -⟩ | ⟨rfl, -⟩ | ⟨rfl, -⟩ | ⟨rfl, -⟩ | ⟨rfl, -⟩ |
    ⟨rfl, -⟩ | ⟨rfl, -⟩ | ⟨rfl, -⟩ | ⟨rfl, -⟩ | ⟨rfl, -⟩ | ⟨rfl, -⟩ | rfl |
    ⟨rfl, -⟩ <;> simp

/-- C7: on every `SwaggerUi` reachable through the public API, the path lookup
succeeds for all six asset identifiers, and `serve` never reaches its internal
lookup-failure branch. -/
theorem C7_asset_paths_total (s : SwaggerUi) (h : Reachable s) :
    (∀ f : SwaggerUiStaticFile, (mapGet s.file_paths f).isSome = true) ∧
    s.serve.isSome = true := by
  have hpaths : ∀ f : SwaggerUiStaticFile, (mapGet s.file_paths f).isSome = true := by
    induction h with
    | new => intro f; cases f <;> rfl
    | title s t _ ih => exact ih
    | config s g _ ih => exact ih
    | override s f p _ ih =>
      intro f2
      show (mapGet (mapInsert s.file_paths f p) f2).isSome = true
      rw [mapGet_mapInsert]
      by_cases h2 : f2 = f
      · simp [h2]
      · simpa [h2] using ih f2
  refine ⟨hpaths, ?_⟩
  obtain ⟨a, ha⟩ := Option.isSome_iff_exists.mp (hpaths .Css)
  obtain ⟨b, hb⟩ := Option.isSome_iff_exists.mp (hpaths .IndexCss)
  obtain ⟨d, hd⟩ := Option.isSome_iff_exists.mp (hpaths .Js)
  obtain ⟨e, he⟩ := Option.isSome_iff_exists.mp (hpaths .StandalonePresetJs)
  simp [SwaggerUi.serve, ha, hb, hd, he]

/-- C7 witness: the freshly constructed value. -/
theorem C7_witness :
    Reachable SwaggerUi.new ∧
    (mapGet SwaggerUi.new.file_paths SwaggerUiStaticFile.Css).isSome = true ∧
    SwaggerUi.new.serve.isSome = true :=
  ⟨Reachable.new, (C7_asset_paths_total SwaggerUi.new Reachable.new).1 .Css,
    (C7_asset_paths_total SwaggerUi.new Reachable.new).2⟩

/-- C9: overriding one asset's path serves the new path for that asset, leaves
the serving paths of the other five assets unchanged, leaves the title and
config unchanged, and changes no asset's byte contents. -/
theorem C9_override_frame (s : SwaggerUi) (f : SwaggerUiStaticFile) (p : String) :
    mapGet (s.override_file_path f p).file_paths f = some p ∧
    (∀ f2 : SwaggerUiStaticFile, f2 ≠ f →
      mapGet (s.override_file_path f p).file_paths f2 = mapGet s.file_paths f2) ∧
    (s.override_file_path f p).title = s.title ∧
    (s.override_file_path f p).config = s.config ∧
    (∀ f2 : SwaggerUiStaticFile,
      (s.override_file_path f p).assetBytes f2 = s.assetBytes f2) := by
  refine ⟨?_, ?_, rfl, rfl, fun _ => rfl⟩
  · show mapGet (mapInsert s.file_paths f p) f = some p
    rw [mapGet_mapInsert, if_pos rfl]
  · intro f2 h2
    show mapGet (mapInsert s.file_paths f p) f2 = mapGet s.file_paths f2
    rw [mapGet_mapInsert, if_neg h2]

/-- C9 witness: overriding the primary stylesheet of a fresh value, checked
against the secondary stylesheet. -/
theorem C9_witness :
    mapGet (SwaggerUi.new.override_file_path SwaggerUiStaticFile.Css
      "/assets/swagger-ui.css").file_paths SwaggerUiStaticFile.Css =
        some "/assets/swagger-ui.css" ∧
    SwaggerUiStaticFile.IndexCss ≠ SwaggerUiStaticFile.Css ∧
    mapGet (SwaggerUi.new.override_file_path SwaggerUiStaticFile.Css
      "/assets/swagger-ui.css").file_paths SwaggerUiStaticFile.IndexCss =
        mapGet SwaggerUi.new.file_paths SwaggerUiStaticFile.IndexCss :=
  ⟨(C9_override_frame SwaggerUi.new .Css "/assets/swagger-ui.css").1,
    by decide,
    (C9_override_frame SwaggerUi.new .Css "/assets/swagger-ui.css").2.1 .IndexCss
      (by decide)⟩

/-- C6: the rendered configuration body is the pretty-printed two-space JSON of
the model with exactly its first two characters (the opening brace and a
newline) and last two characters (a newline and the closing brace) removed,
spliced verbatim into the fixed template between the prefix ending at the
placeholder and the suffix that declares the fixed sibling keys `presets` and
`plugins`. (Serialization is total for this closed data model, so the
success hypothesis of the claim is vacuous.) -/
theorem C6_config_body_splice (c : Config) :
    DEFAULT_CONFIG =
      CONFIG_TEMPLATE_BEFORE ++ "\x7b\x7bconfig\x7d\x7d" ++ CONFIG_TEMPLATE_AFTER ∧
    ∃ body : String,
      to_string_pretty c = "\x7b\n" ++ body ++ "\n\x7d" ∧
      format_config c DEFAULT_CONFIG =
        CONFIG_TEMPLATE_BEFORE ++ body ++ CONFIG_TEMPLATE_AFTER := by
  have htmpl : DEFAULT_CONFIG =
      CONFIG_TEMPLATE_BEFORE ++ "\x7b\x7bconfig\x7d\x7d" ++ CONFIG_TEMPLATE_AFTER := by
    decide
  refine ⟨htmpl, ?_⟩
  have hmem : ("layout", Json.str c.layout) ∈ c.toJsonFields := by
    simp [Config.toJsonFields, Config.fieldsTailGroup, List.mem_append]
  have hne : c.toJsonFields ≠ [] := List.ne_nil_of_mem hmem
  rcases hfs : c.toJsonFields with - | ⟨f, fs⟩
  · exact absurd hfs hne
  have hpretty : to_string_pretty c = "\x7b\n" ++ prettyMembers 1 f fs ++ "\n\x7d" := by
    unfold to_string_pretty
    rw [hfs]
    simp only [prettyJson]
    apply String.ext
    have hind : indentStr 0 = "" := rfl
    simp [hind, String.data_append]
  refine ⟨prettyMembers 1 f fs, hpretty, ?_⟩
  have hback : ∀ l : List Char, (List.asString l).toList = l := fun _ => rfl
  have hl : ("\x7b\n" ++ prettyMembers 1 f fs ++ "\n\x7d").toList =
      '\x7b' :: '\n' :: ((prettyMembers 1 f fs).toList ++ ['\n', '\x7d']) := by
    show ("\x7b\n" ++ prettyMembers 1 f fs ++ "\n\x7d").data = _
    simp [String.data_append]
  have hd : DEFAULT_CONFIG.toList =
      CONFIG_TEMPLATE_BEFORE.toList ++ "\x7b\x7bconfig\x7d\x7d".toList ++
        CONFIG_TEMPLATE_AFTER.toList := by
    decide
  have hgoal : format_config c DEFAULT_CONFIG =
      (replaceList "\x7b\x7bconfig\x7d\x7d".toList
        ((((to_string_pretty c).toList.take
          ((to_string_pretty c).toList.length - 2)).drop 2).asString).toList
        DEFAULT_CONFIG.toList).asString := rfl
  rw [hgoal, hpretty, hl, strip_braces, hback, hd,
    replaceList_splice _ _ _ _ (by decide) (by decide) (by decide)]
  apply String.ext
  simp [String.data_append]
  rfl

end SwaggerUiRedist
